import Mathlib

/-!
Shallow embedding of `src/main.cpp` (the TemperatureScale program).

Doubles are modelled as exact rationals `ℚ`: every formula in the source is an
affine transform with decimal-literal coefficients, and the spec describes them
as exact affine transforms.  The deleted primary template
`ConversionTraits<S, R>` is modelled by an `Option`-valued conversion table:
`none` for a pair means the instantiation is rejected (a compile-time error in
the source).  The infinitely recursive comparison operators are modelled with
an explicit fuel parameter: returning `none` at every fuel means no finite
evaluation produces a result.
-/

namespace Temperature

/-- The tolerance constant `const double EPSILON = 0.001;`. -/
def EPSILON : ℚ := 0.001

/-- The helper `bool AreEqual(double d1, double d2)`: `std::abs(d1 - d2) < EPSILON`. -/
def AreEqual (d1 d2 : ℚ) : Bool := |d1 - d2| < EPSILON

/-- The enumeration `enum class Scale` with members CELSIUS, FAHRENHEIT, KELVIN. -/
inductive Scale where
  | CELSIUS
  | FAHRENHEIT
  | KELVIN
deriving DecidableEq, Repr

/-- The class `template <Scale S> class Quantity`: an immutable double tagged with its
scale.  `amount` is the private `const double amount` member; the explicit
conversion `operator double()` is projection to `amount`. -/
structure Quantity (S : Scale) where
  amount : ℚ
deriving DecidableEq, Repr

/-- Source `operator==` on two quantities of the same scale:
`AreEqual(static_cast<double>(lhs), static_cast<double>(rhs))`. -/
def qeq {S : Scale} (lhs rhs : Quantity S) : Bool :=
  AreEqual lhs.amount rhs.amount

/-- Source `operator!=` on two quantities of the same scale: `!(lhs == rhs)`. -/
def qne {S : Scale} (lhs rhs : Quantity S) : Bool :=
  !(qeq lhs rhs)

/-- Source `operator<` for `Quantity`, whose body is `return lhs < rhs;` — a call to
itself on the very same arguments.  Modelled with a fuel parameter: each
recursive call consumes one unit of fuel, and `none` means evaluation did not
finish within the given fuel. -/
def ltFuel {S : Scale} : Nat → Quantity S → Quantity S → Option Bool
  | 0, _, _ => none
  | n + 1, lhs, rhs => ltFuel n lhs rhs

/-- Source `operator>` for `Quantity`, whose body is `return rhs < lhs;` — one call to
`operator<` with the arguments swapped. -/
def gtFuel {S : Scale} : Nat → Quantity S → Quantity S → Option Bool
  | 0, _, _ => none
  | n + 1, lhs, rhs => ltFuel n rhs lhs

/-- Source `operator<=` for `Quantity`, whose body is `return !(lhs > rhs);`. -/
def leFuel {S : Scale} : Nat → Quantity S → Quantity S → Option Bool
  | 0, _, _ => none
  | n + 1, lhs, rhs => (gtFuel n lhs rhs).map (fun b => !b)

/-- Source `operator>=` for `Quantity`, whose body is `return !(lhs < rhs);`. -/
def geFuel {S : Scale} : Nat → Quantity S → Quantity S → Option Bool
  | 0, _, _ => none
  | n + 1, lhs, rhs => (ltFuel n lhs rhs).map (fun b => !b)

/-- Source `operator+`: `Quantity<S>(static_cast<double>(q1) + static_cast<double>(q2))`. -/
def qadd {S : Scale} (q1 q2 : Quantity S) : Quantity S :=
  ⟨q1.amount + q2.amount⟩

/-- Source `operator-`: `Quantity<S>(static_cast<double>(q1) - static_cast<double>(q2))`. -/
def qsub {S : Scale} (q1 q2 : Quantity S) : Quantity S :=
  ⟨q1.amount - q2.amount⟩

/-- The `ConversionTraits<S, R>` family: the six explicit specializations carry
their `Convert` function; every other instantiation (in particular every
identity pair) hits the deleted primary template and is modelled as `none`. -/
def ConversionTraits : Scale → Scale → Option (ℚ → ℚ)
  | Scale.CELSIUS, Scale.KELVIN => some (fun value => value + 273.15)
  | Scale.KELVIN, Scale.CELSIUS => some (fun value => value - 273.15)
  | Scale.CELSIUS, Scale.FAHRENHEIT => some (fun value => (value * 9) / 5 + 32)
  | Scale.FAHRENHEIT, Scale.CELSIUS => some (fun value => (value - 32) * 5 / 9)
  | Scale.FAHRENHEIT, Scale.KELVIN => some (fun value => (value + 459.67) * 5 / 9)
  | Scale.KELVIN, Scale.FAHRENHEIT => some (fun value => (value * 9) / 5 - 459.67)
  | _, _ => none

/-- The cast `temperature_cast<R>(q)`:
`Quantity<R>(ConversionTraits<S, R>::Convert(static_cast<double>(q)))`.
A `none` result means the instantiation does not compile (deleted template). -/
def temperature_cast (R : Scale) {S : Scale} (q : Quantity S) : Option (Quantity R) :=
  (ConversionTraits S R).map (fun f => ⟨f q.amount⟩)

/-- One block of `main`: convert `q` out to scale `T`, back to scale `S`, and
report whether the `assert(q == result)` holds. -/
def checkRoundTrip {S : Scale} (T : Scale) (q : Quantity S) : Option Bool :=
  (temperature_cast T q).bind (fun m =>
    (temperature_cast S m).map (fun r => qeq q r))

/-- Literal `36.5_deg` of `main`. -/
def t1 : Quantity Scale.CELSIUS := ⟨36.5⟩

/-- Literal `79.0_f` of `main`. -/
def t2 : Quantity Scale.FAHRENHEIT := ⟨79.0⟩

/-- Literal `100.0_k` of `main`. -/
def t3 : Quantity Scale.KELVIN := ⟨100.0⟩

/-- The body of `main`: the six round-trip assertion blocks in source order.
`some 0` when every assertion holds (the program reaches the end of `main` and
exits with status 0); `none` when some assertion fails and the process aborts. -/
def mainExitCode : Option Nat :=
  match checkRoundTrip Scale.FAHRENHEIT t1, checkRoundTrip Scale.KELVIN t1,
      checkRoundTrip Scale.CELSIUS t2, checkRoundTrip Scale.KELVIN t2,
      checkRoundTrip Scale.CELSIUS t3, checkRoundTrip Scale.FAHRENHEIT t3 with
  | some true, some true, some true, some true, some true, some true => some 0
  | _, _, _, _, _, _ => none

/-- Helper for the recursion bug: `ltFuel` yields no answer at any fuel. -/
theorem ltFuel_eq_none {S : Scale} (fuel : Nat) (lhs rhs : Quantity S) :
    ltFuel fuel lhs rhs = none := by
  induction fuel with
  | zero => rfl
  | succ n ih => simpa [ltFuel] using ih

/-- Helper for the recursion bug: `gtFuel` yields no answer at any fuel. -/
theorem gtFuel_eq_none {S : Scale} (fuel : Nat) (lhs rhs : Quantity S) :
    gtFuel fuel lhs rhs = none := by
  cases fuel with
  | zero => rfl
  | succ n => exact ltFuel_eq_none n rhs lhs

/-- C1: `temperature_cast` applies, for each of the six ordered pairs of
distinct scales, exactly the listed affine formula to the raw value, producing
a quantity tagged with the target scale. -/
theorem c1_conversion_formulas :
    (∀ q : Quantity Scale.CELSIUS,
      temperature_cast Scale.KELVIN q = some ⟨q.amount + 273.15⟩) ∧
    (∀ q : Quantity Scale.KELVIN,
      temperature_cast Scale.CELSIUS q = some ⟨q.amount - 273.15⟩) ∧
    (∀ q : Quantity Scale.CELSIUS,
      temperature_cast Scale.FAHRENHEIT q = some ⟨(q.amount * 9) / 5 + 32⟩) ∧
    (∀ q : Quantity Scale.FAHRENHEIT,
      temperature_cast Scale.CELSIUS q = some ⟨(q.amount - 32) * 5 / 9⟩) ∧
    (∀ q : Quantity Scale.FAHRENHEIT,
      temperature_cast Scale.KELVIN q = some ⟨(q.amount + 459.67) * 5 / 9⟩) ∧
    (∀ q : Quantity Scale.KELVIN,
      temperature_cast Scale.FAHRENHEIT q = some ⟨(q.amount * 9) / 5 - 459.67⟩) := by
  refine ⟨fun q => ?_, fun q => ?_, fun q => ?_, fun q => ?_, fun q => ?_, fun q => ?_⟩ <;>
    simp [temperature_cast, ConversionTraits]

/-- C2: for every quantity `q` of any scale `S` and every other scale `T`,
converting `q` to `T` and back to `S` yields a quantity equal to `q` under the
tolerance-based equality (the round-trip `assert` condition holds). -/
theorem c2_round_trip (S T : Scale) (hne : S ≠ T) (q : Quantity S) :
    checkRoundTrip T q = some true := by
  cases S <;> cases T <;> first
    | exact absurd rfl hne
    | (simp only [checkRoundTrip, temperature_cast, ConversionTraits, qeq, AreEqual, EPSILON,
        Option.map_some, Option.some_bind]
       norm_num)

/-- Witness for C2 at a concrete input: the Celsius sample round-trips through
Kelvin. -/
theorem c2_round_trip_witness :
    Scale.CELSIUS ≠ Scale.KELVIN ∧ checkRoundTrip Scale.KELVIN t1 = some true :=
  ⟨by decide, c2_round_trip Scale.CELSIUS Scale.KELVIN (by decide) t1⟩

/-- C3: two same-scale quantities compare equal exactly when the absolute
difference of their raw values is below EPSILON, EPSILON is the fixed constant
0.001, and `!=` is the negation of `==`. -/
theorem c3_equality_tolerance :
    EPSILON = 0.001 ∧
    ∀ (S : Scale) (a b : Quantity S),
      (qeq a b = true ↔ |a.amount - b.amount| < EPSILON) ∧
      (qne a b = true ↔ ¬ qeq a b = true) := by
  refine ⟨rfl, fun S a b => ⟨?_, ?_⟩⟩
  · simp [qeq, AreEqual]
  · simp [qne]

/-- C4: the fueled evaluations of `<`, `>`, `<=`, `>=` on same-scale quantities
never produce a result, at any fuel: `operator<` calls itself on the same
arguments, and the other three are defined from `<`. -/
theorem c4_comparison_diverges (S : Scale) (fuel : Nat) (lhs rhs : Quantity S) :
    ltFuel fuel lhs rhs = none ∧ gtFuel fuel lhs rhs = none ∧
    leFuel fuel lhs rhs = none ∧ geFuel fuel lhs rhs = none := by
  refine ⟨ltFuel_eq_none fuel lhs rhs, ?_, ?_, ?_⟩
  · cases fuel with
    | zero => rfl
    | succ n => exact ltFuel_eq_none n rhs lhs
  · cases fuel with
    | zero => rfl
    | succ n => simp [leFuel, gtFuel_eq_none]
  · cases fuel with
    | zero => rfl
    | succ n => simp [geFuel, ltFuel_eq_none]

/-- C5: the self-check routine of `main` performs the six round-trip
assertions on 36.5 Celsius, 79.0 Fahrenheit and 100.0 Kelvin, each holds, and
the program exits with status 0. -/
theorem c5_self_check_passes : mainExitCode = some 0 := by
  simp only [mainExitCode, checkRoundTrip, temperature_cast, ConversionTraits, qeq, AreEqual,
    EPSILON, t1, t2, t3, Option.map_some, Option.some_bind]
  norm_num

/-- C6: exact conversion values with no tolerance: 0 Celsius is exactly 273.15
Kelvin and exactly 32 Fahrenheit, and -459.67 Fahrenheit is exactly 0 Kelvin. -/
theorem c6_exact_fixed_points :
    temperature_cast Scale.KELVIN (⟨0⟩ : Quantity Scale.CELSIUS) = some ⟨273.15⟩ ∧
    temperature_cast Scale.FAHRENHEIT (⟨0⟩ : Quantity Scale.CELSIUS) = some ⟨32⟩ ∧
    temperature_cast Scale.KELVIN (⟨-459.67⟩ : Quantity Scale.FAHRENHEIT) = some ⟨0⟩ := by
  refine ⟨?_, ?_, ?_⟩ <;>
    (simp only [temperature_cast, ConversionTraits, Option.map_some, Option.some_inj]
     norm_num)

/-- C7: addition and subtraction of same-scale quantities produce a new
quantity of that scale whose raw value is the sum, respectively the
difference, of the raw values; the operands, being immutable values, are
unchanged. -/
theorem c7_add_sub (S : Scale) (a b : Quantity S) :
    qadd a b = ⟨a.amount + b.amount⟩ ∧ qsub a b = ⟨a.amount - b.amount⟩ :=
  ⟨rfl, rfl⟩

/-- C8: the conversion table is defined for exactly the six ordered pairs of
distinct scales and for no other pair; in particular every identity pair hits
the deleted primary template and is rejected. -/
theorem c8_conversion_domain (s t : Scale) :
    (ConversionTraits s t).isSome = true ↔ s ≠ t := by
  cases s <;> cases t <;> simp [ConversionTraits]

/-- C9: over exact arithmetic each direct conversion between Fahrenheit and
Kelvin equals the composition of the two conversions through Celsius. -/
theorem c9_composition_through_celsius (v : ℚ) :
    ((ConversionTraits Scale.FAHRENHEIT Scale.CELSIUS).bind (fun f =>
      (ConversionTraits Scale.CELSIUS Scale.KELVIN).map (fun g => g (f v)))) =
      (ConversionTraits Scale.FAHRENHEIT Scale.KELVIN).map (fun h => h v) ∧
    ((ConversionTraits Scale.KELVIN Scale.CELSIUS).bind (fun f =>
      (ConversionTraits Scale.CELSIUS Scale.FAHRENHEIT).map (fun g => g (f v)))) =
      (ConversionTraits Scale.KELVIN Scale.FAHRENHEIT).map (fun h => h v) := by
  refine ⟨?_, ?_⟩ <;>
    (simp only [ConversionTraits, Option.some_bind, Option.map_some, Option.some_inj]
     norm_num
     ring)

/-- C10: the tolerance-based equality on same-scale quantities is reflexive
and symmetric but not transitive: with raw values 0, 0.0009 and 0.0018 the
first equals the second and the second equals the third, but the first does
not equal the third. -/
theorem c10_tolerance_not_transitive :
    (∀ (S : Scale) (a : Quantity S), qeq a a = true) ∧
    (∀ (S : Scale) (a b : Quantity S), qeq a b = qeq b a) ∧
    (qeq (⟨0⟩ : Quantity Scale.CELSIUS) ⟨0.0009⟩ = true ∧
     qeq (⟨0.0009⟩ : Quantity Scale.CELSIUS) ⟨0.0018⟩ = true ∧
     qeq (⟨0⟩ : Quantity Scale.CELSIUS) ⟨0.0018⟩ = false) := by
  refine ⟨fun S a => ?_, fun S a b => ?_, ?_, ?_, ?_⟩
  · simp only [qeq, AreEqual, EPSILON]
    norm_num
  · simp only [qeq, AreEqual, abs_sub_comm]
  · simp only [qeq, AreEqual, EPSILON]
    norm_num [abs_lt]
  · simp only [qeq, AreEqual, EPSILON]
    norm_num [abs_lt]
  · simp only [qeq, AreEqual, EPSILON]
    norm_num
    exact le_trans (by norm_num) (le_abs_self _)

end Temperature
